import Mathlib

/-!
# Verification of the AzureFaceID-RT attendance service (src/app.py)

A shallow embedding of the Flask attendance service: the record-store
client (`supabase_request` and its derived operations), the face-service
client (`create_collection`, `index_faces_from_base64`,
`search_faces_from_base64`) and the HTTP endpoint handlers
(`api_create_student`, `api_register_face`, `api_recognize_face`).

External services (the Supabase REST store and the Rekognition face
service) are modelled as oracles: each endpoint handler is a pure
function of the request data together with the responses those services
would give.  Side effects that the claims are about — attendance writes,
face-enrollment calls, collection-creation calls — are returned
explicitly so that theorems can count them.
-/

/-- A Python value, as far as the service manipulates JSON request
bodies and store responses.  `pyNone` is Python `None`. -/
inductive PyValue where
  | pyNone
  | pyBool (b : Bool)
  | pyInt (n : Int)
  | pyStr (s : String)
  | pyList (l : List PyValue)

/-- Python truthiness for the values above: `None`, `False`, `0`, `""`
and `[]` are falsy, everything else is truthy. -/
def PyValue.truthy : PyValue → Bool
  | .pyNone => false
  | .pyBool b => b
  | .pyInt n => n != 0
  | .pyStr s => s != ""
  | .pyList l => !l.isEmpty

/-! ## Record Store Client (`supabase_request`, app.py lines 42-68)

The outbound HTTP exchange is abstracted by the response the store
sends back: its status code, its body parsed as JSON when that parse
succeeds (`jsonBody = some v`), and its raw text. -/

/-- An HTTP response from the record store. -/
structure HttpResponse where
  status_code : Nat
  jsonBody : Option PyValue
  text : String

/-- What `supabase_request` returns to its caller: Python `None` on an
error status, otherwise the parsed JSON body, or the raw text when the
body is not JSON. -/
inductive ReqResult where
  | null
  | json (v : PyValue)
  | text (s : String)

/-- `supabase_request` (app.py lines 60-68), as a function of the
store's response: statuses `>= 400` are logged and collapsed to `None`
(no exception); otherwise `response.json()` is returned when the body
parses as JSON, and `response.text` when it does not. -/
def supabase_request (resp : HttpResponse) : ReqResult :=
  if resp.status_code ≥ 400 then
    ReqResult.null
  else
    match resp.jsonBody with
    | some v => ReqResult.json v
    | none => ReqResult.text resp.text

/-! ## Data model -/

/-- A student row of the store (app.py `create_student`, lines 79-87). -/
structure Student where
  id : String
  name : String
  branch : String
  year : Int
  roll_number : String
  email : String
deriving DecidableEq

/-- One face match returned by `search_faces_from_base64`
(app.py lines 178-185). -/
structure FaceMatch where
  face_id : String
  similarity : ℚ
  external_id : String
deriving DecidableEq

/-- The result shape of `search_faces_from_base64` (app.py lines
160-197): success with the ranked match list (`found`), or an error
message. -/
inductive SearchResult where
  | success (found : List FaceMatch)
  | err (message : String)
deriving DecidableEq

/-- The result shape of `index_faces_from_base64` (app.py lines
128-158): success with the new face ids and their count, or an error
message. -/
inductive IndexResult where
  | success (face_ids : List String) (count : Nat)
  | err (message : String)
deriving DecidableEq

/-! ## Data-URI prefix stripping (app.py lines 274 and 290)

Both image endpoints pass the image through
`data['image'].split(',')[1] if ',' in data['image'] else data['image']`.
`splitComma` is Python's `str.split(',')` on the character list. -/

/-- Python `s.split(',')`: the comma-separated groups of `cs`, in
order, empty groups kept.  Always non-empty.  The `[[c]]` branch of the
inner match is unreachable since `splitComma` never returns `[]`. -/
def splitComma : List Char → List (List Char)
  | [] => [[]]
  | c :: rest =>
      if c = ',' then [] :: splitComma rest
      else
        match splitComma rest with
        | [] => [[c]]
        | g :: gs => (c :: g) :: gs

/-- The `split(',')[1] if ',' in s else s` idiom shared by
`api_register_face` (line 274) and `api_recognize_face` (line 290).
When a comma is present `splitComma` has at least two groups, so the
`getD` default is unreachable. -/
def stripDataUri (s : String) : String :=
  if ',' ∈ s.data then
    String.mk ((splitComma s.data).getD 1 [])
  else s

/-- The spec's wording of the stripping ("removes exactly the content
up to the first comma"), for comparison with `stripDataUri`: drop
everything through the first comma when one is present. -/
def specStripDataUri (s : String) : String :=
  if ',' ∈ s.data then
    String.mk ((s.data.dropWhile (fun c => c != ',')).tail)
  else s

/-- Structural characterization of `splitComma`: the first group is the
longest comma-free prefix, and the remaining groups are the split of
what follows the first comma. -/
theorem splitComma_eq (cs : List Char) :
    splitComma cs =
      cs.takeWhile (fun c => c != ',') ::
        (if ',' ∈ cs then splitComma ((cs.dropWhile (fun c => c != ',')).tail)
         else []) := by
  induction cs with
  | nil => simp [splitComma]
  | cons c rest ih =>
      by_cases hc : c = ','
      · subst hc
        simp [splitComma, List.takeWhile_cons, List.dropWhile_cons]
      · have hb : (c != ',') = true := by simp [hc]
        have hmem : (',' ∈ c :: rest) ↔ (',' ∈ rest) :=
          ⟨fun hx => (List.mem_cons.mp hx).resolve_left fun e => hc e.symm,
           List.mem_cons_of_mem _⟩
        simp only [splitComma, if_neg hc]
        rw [ih]
        simp [List.takeWhile_cons, List.dropWhile_cons, hb, hmem]

/-- The stripped image, in list-of-characters form: when a comma is
present, the result is the segment between the first comma and the next
comma (or the end). -/
theorem stripDataUri_data (s : String) (h : ',' ∈ s.data) :
    (stripDataUri s).data =
      ((s.data.dropWhile (fun c => c != ',')).tail).takeWhile
        (fun c => c != ',') := by
  unfold stripDataUri
  rw [if_pos h]
  show (splitComma s.data).getD 1 [] = _
  rw [splitComma_eq s.data, if_pos h,
    splitComma_eq ((s.data.dropWhile (fun c => c != ',')).tail)]
  simp [List.getD]

theorem stripDataUri_of_no_comma (t : String) (h : ',' ∉ t.data) :
    stripDataUri t = t := by
  simp [stripDataUri, h]

/-- The stripped image never contains a comma. -/
theorem stripDataUri_no_comma (s : String) : ',' ∉ (stripDataUri s).data := by
  by_cases h : ',' ∈ s.data
  · rw [stripDataUri_data s h]
    intro hmem
    have hp := List.mem_takeWhile_imp hmem
    simp at hp
  · rw [stripDataUri_of_no_comma s h]
    exact h

/-! ## Face Service Client -/

/-- The face service's collection state visible to `create_collection`:
the list of existing collection ids (what `list_collections` returns). -/
structure RekogState where
  collections : List String
deriving DecidableEq

/-- A `{status, message}` result of the collection operations
(app.py lines 101-116).  Messages follow the source up to quoting. -/
structure CollResult where
  status : String
  message : String
deriving DecidableEq

/-- `create_collection` (app.py lines 101-116) on the happy path
(service calls succeed; `ClientError` is environment failure and not
modelled): lists the collections; when the id is already present,
returns a success result saying so and issues no creation request;
otherwise issues the creation request and returns a success result.
The returned triple is (result, new service state, whether a creation
request was issued). -/
def create_collection (st : RekogState) (cid : String) :
    CollResult × RekogState × Bool :=
  if cid ∈ st.collections then
    (⟨"success", "Collection " ++ cid ++ " already exists."⟩, st, false)
  else
    (⟨"success", "Collection " ++ cid ++ " created."⟩,
      ⟨st.collections ++ [cid]⟩, true)

/-- The `ExternalImageId` actually sent by `index_faces_from_base64`
(app.py line 136): `external_id if external_id else "unknown"`, where
Python `None` and `""` are falsy. -/
def effective_external_id (external_id : Option String) : String :=
  match external_id with
  | some s => if s != "" then s else "unknown"
  | none => "unknown"

/-- The `index_faces` request that `index_faces_from_base64`
(app.py lines 128-138) submits: the collection, the decoded image
payload, and the effective external image id. -/
structure IndexCall where
  collectionId : String
  imageBase64 : String
  externalImageId : String
deriving DecidableEq

/-- The request assembled by `index_faces_from_base64` before the
service responds (app.py lines 133-138). -/
def index_faces_request (cid : String) (image_base64 : String)
    (external_id : Option String) : IndexCall :=
  ⟨cid, image_base64, effective_external_id external_id⟩

/-! ## Endpoint: `POST /api/students` (`api_create_student`,
app.py lines 231-251) -/

/-- The fields required by `api_create_student`, in the order the
validation loop checks them (app.py line 234). -/
def required_fields : List String := ["name", "branch", "year", "roll_number", "email"]

/-- Python `field in data` on a JSON-object request body. -/
def hasKey (data : List (String × PyValue)) (field : String) : Bool :=
  data.any (fun kv => kv.1 == field)

/-- Python `data[field]` (the key is present on every use site). -/
def getVal (data : List (String × PyValue)) (field : String) : PyValue :=
  match data.find? (fun kv => kv.1 == field) with
  | some kv => kv.2
  | none => PyValue.pyNone

/-- The validation loop of `api_create_student` (app.py lines 236-238):
the first required field missing from the body, if any. -/
def findMissing : List String → List (String × PyValue) → Option String
  | [], _ => none
  | f :: fs, data => if hasKey data f then findMissing fs data else some f

/-- Response of `api_create_student`. -/
inductive CreateStudentResponse where
  | missingField (f : String)
  | created (result : PyValue)
  | storeFailure

/-- HTTP status of each `api_create_student` response
(app.py lines 238, 249, 251). -/
def createStudentStatus : CreateStudentResponse → Nat
  | .missingField _ => 400
  | .created _ => 200
  | .storeFailure => 500

/-- `api_create_student` (app.py lines 231-251): validate presence of
the five required keys in order, then call `create_student`; the
store's reply is the oracle `create` applied to the five field values
(`PyValue.pyNone` standing for Python `None`, i.e. a store failure in
`supabase_request`).  `if result:` is Python truthiness. -/
def api_create_student (data : List (String × PyValue))
    (create : PyValue → PyValue → PyValue → PyValue → PyValue → PyValue) :
    CreateStudentResponse :=
  match findMissing required_fields data with
  | some f => CreateStudentResponse.missingField f
  | none =>
      let result := create (getVal data "name") (getVal data "branch")
        (getVal data "year") (getVal data "roll_number") (getVal data "email")
      if result.truthy then CreateStudentResponse.created result
      else CreateStudentResponse.storeFailure

/-! ## Endpoint: `POST /api/register-face` (`api_register_face`,
app.py lines 253-278) -/

/-- Response of `api_register_face`. -/
inductive RegisterResponse where
  | missingFields
  | studentNotFound
  | enrollResult (r : IndexResult)
deriving DecidableEq

/-- HTTP status of each `api_register_face` response
(app.py lines 258, 264, 278). -/
def registerStatus : RegisterResponse → Nat
  | .missingFields => 400
  | .studentNotFound => 404
  | .enrollResult _ => 200

/-- `api_register_face` (app.py lines 253-278).  Oracles:
`get_student_by_roll_number` gives the store's reply to the roll-number
lookup (`none` = store failure, i.e. `supabase_request` returned
`None`); `index_faces` gives the face service's reply to an enrollment
request for (stripped image, external id).  Returns the HTTP response,
whether the face-enrollment operation was invoked, and the face-service
collection state after the request. -/
def api_register_face (image roll_number : Option String)
    (get_student_by_roll_number : String → Option (List Student))
    (index_faces : String → String → IndexResult)
    (st : RekogState) (cid : String) :
    RegisterResponse × Bool × RekogState :=
  match image, roll_number with
  | some img, some roll =>
      match get_student_by_roll_number roll with
      | some (s :: _) =>
          let st2 := (create_collection st cid).2.1
          (RegisterResponse.enrollResult
              (index_faces (stripDataUri img) s.id),
            true, st2)
      | _ => (RegisterResponse.studentNotFound, false, st)
  | _, _ => (RegisterResponse.missingFields, false, st)

/-! ## Endpoint: `POST /api/recognize-face` (`api_recognize_face`,
app.py lines 280-312) -/

/-- Response of `api_recognize_face`: 400 for a missing image, the
`{status: success, match, student}` payload on the full success path,
or the raw search result passed through unchanged. -/
inductive RecognizeResponse where
  | missingImage
  | matched (m : FaceMatch) (s : Student)
  | raw (r : SearchResult)
deriving DecidableEq

/-- `api_recognize_face` (app.py lines 280-312).  Oracles: `search`
gives `search_faces_from_base64`'s result on the stripped image;
`get_student_by_id` gives the store's reply to the student lookup
(`none` = store failure).  Returns the HTTP response together with the
list of attendance writes issued (`record_attendance`'s arguments,
app.py line 304); the write's own store outcome is ignored by the
source. -/
def api_recognize_face (image : Option String)
    (search : String → SearchResult)
    (get_student_by_id : String → Option (List Student)) :
    RecognizeResponse × List (String × ℚ) :=
  match image with
  | none => (RecognizeResponse.missingImage, [])
  | some img =>
      let result := search (stripDataUri img)
      match result with
      | SearchResult.success (m :: _) =>
          match get_student_by_id m.external_id with
          | some (s :: _) =>
              (RecognizeResponse.matched m s, [(m.external_id, m.similarity)])
          | _ => (RecognizeResponse.raw result, [])
      | _ => (RecognizeResponse.raw result, [])

/-! ## Helper lemmas -/

/-- When every field of `fs` is present in the body, the validation
loop finds nothing missing. -/
theorem findMissing_eq_none (data : List (String × PyValue)) :
    ∀ fs : List String, (∀ f ∈ fs, hasKey data f = true) →
      findMissing fs data = none := by
  intro fs
  induction fs with
  | nil => intro _; rfl
  | cons f fs ih =>
      intro h
      have hf : hasKey data f = true := h f (List.mem_cons_self ..)
      simp only [findMissing, hf, if_true]
      exact ih fun g hg => h g (List.mem_cons_of_mem _ hg)

/-- The validation loop reports the first missing field: if every field
before `f` is present and `f` is absent, the loop stops at `f`. -/
theorem findMissing_first (data : List (String × PyValue)) :
    ∀ (fs₁ : List String) (f : String) (fs₂ : List String),
      (∀ g ∈ fs₁, hasKey data g = true) → hasKey data f = false →
      findMissing (fs₁ ++ f :: fs₂) data = some f := by
  intro fs₁
  induction fs₁ with
  | nil =>
      intro f fs₂ _ hf
      simp [findMissing, hf]
  | cons g gs ih =>
      intro f fs₂ hpresent hf
      have hg : hasKey data g = true := hpresent g (List.mem_cons_self ..)
      simp only [List.cons_append, findMissing, hg, if_true]
      exact ih f fs₂ (fun x hx => hpresent x (List.mem_cons_of_mem _ hx)) hf

/-- After `create_collection`, the collection id is present. -/
theorem create_collection_mem (st : RekogState) (cid : String) :
    cid ∈ ((create_collection st cid).2.1).collections := by
  by_cases h : cid ∈ st.collections
  · simp [create_collection, h]
  · simp [create_collection, h]

/-! ## Claims -/

/-- C1: a recognize-face request whose face search succeeds with a
non-empty match list, and whose top match's external identifier
resolves to an existing student (the store's `id=eq.` filter makes the
returned student's id equal to that identifier), issues exactly one
attendance write carrying that student's identifier and the top match's
similarity, and responds with the match object and the student record
embedded. -/
theorem recognize_success_records_attendance
    (img : String) (search : String → SearchResult)
    (get : String → Option (List Student))
    (m : FaceMatch) (ms : List FaceMatch) (s : Student) (ss : List Student)
    (hsearch : search (stripDataUri img) = SearchResult.success (m :: ms))
    (hget : get m.external_id = some (s :: ss))
    (hid : s.id = m.external_id) :
    api_recognize_face (some img) search get
      = (RecognizeResponse.matched m s, [(s.id, m.similarity)]) := by
  simp [api_recognize_face, hsearch, hget, hid]

theorem recognize_success_records_attendance_witness :
    api_recognize_face (some "img")
        (fun _ => SearchResult.success [⟨"F1", 93.2, "S1"⟩])
        (fun _ => some [⟨"S1", "Ada", "CSE", 3, "R1", "ada@x"⟩])
      = (RecognizeResponse.matched ⟨"F1", 93.2, "S1"⟩
          ⟨"S1", "Ada", "CSE", 3, "R1", "ada@x"⟩,
         [("S1", 93.2)]) :=
  recognize_success_records_attendance "img"
    (fun _ => SearchResult.success [⟨"F1", 93.2, "S1"⟩])
    (fun _ => some [⟨"S1", "Ada", "CSE", 3, "R1", "ada@x"⟩])
    ⟨"F1", 93.2, "S1"⟩ [] ⟨"S1", "Ada", "CSE", 3, "R1", "ada@x"⟩ []
    rfl rfl rfl

/-- C2: a recognize-face request whose face search succeeds with a
non-empty match list but whose top match's external identifier matches
no known student (the lookup returns the empty list) responds with the
raw search result unchanged and issues no attendance write. -/
theorem recognize_unknown_student_returns_raw
    (img : String) (search : String → SearchResult)
    (get : String → Option (List Student))
    (m : FaceMatch) (ms : List FaceMatch)
    (hsearch : search (stripDataUri img) = SearchResult.success (m :: ms))
    (hget : get m.external_id = some []) :
    api_recognize_face (some img) search get
      = (RecognizeResponse.raw (SearchResult.success (m :: ms)), []) := by
  simp [api_recognize_face, hsearch, hget]

theorem recognize_unknown_student_returns_raw_witness :
    api_recognize_face (some "img")
        (fun _ => SearchResult.success [⟨"F1", 93.2, "S9"⟩])
        (fun _ => some [])
      = (RecognizeResponse.raw (SearchResult.success [⟨"F1", 93.2, "S9"⟩]),
         []) :=
  recognize_unknown_student_returns_raw "img"
    (fun _ => SearchResult.success [⟨"F1", 93.2, "S9"⟩])
    (fun _ => some []) ⟨"F1", 93.2, "S9"⟩ [] rfl rfl

/-- C3: a register-face request whose roll number matches no student
(the lookup returns the empty list) responds 404 student-not-found, and
the face-enrollment operation is never invoked. -/
theorem register_unknown_roll_is_404
    (img roll : String) (get : String → Option (List Student))
    (index_faces : String → String → IndexResult)
    (st : RekogState) (cid : String)
    (hget : get roll = some []) :
    api_register_face (some img) (some roll) get index_faces st cid
      = (RegisterResponse.studentNotFound, false, st) ∧
    registerStatus
      (api_register_face (some img) (some roll) get index_faces st cid).1
      = 404 := by
  constructor
  · simp [api_register_face, hget]
  · simp [api_register_face, hget, registerStatus]

theorem register_unknown_roll_is_404_witness :
    api_register_face (some "img") (some "R404")
        (fun _ => some []) (fun _ _ => IndexResult.err "e") ⟨[]⟩ "attend"
      = (RegisterResponse.studentNotFound, false, ⟨[]⟩) ∧
    registerStatus
      (api_register_face (some "img") (some "R404")
        (fun _ => some []) (fun _ _ => IndexResult.err "e") ⟨[]⟩ "attend").1
      = 404 :=
  register_unknown_roll_is_404 "img" "R404" (fun _ => some [])
    (fun _ _ => IndexResult.err "e") ⟨[]⟩ "attend" rfl

/-- C4 counterexample: `split(',')[1]` is not "the content after the
first comma" when the payload contains a second comma.  On `"a,b,c"`
the code passes `"b"` to the face service, while removing exactly the
content up to the first comma would pass `"b,c"`. -/
theorem strip_counterexample :
    stripDataUri "a,b,c" = "b" ∧ specStripDataUri "a,b,c" = "b,c" ∧
    stripDataUri "a,b,c" ≠ specStripDataUri "a,b,c" := by
  refine ⟨by decide, by decide, by decide⟩

/-- C4 amended: the stripping keeps exactly the segment strictly
between the first comma and the following comma or the end of the
payload (which is the whole remainder when the comma is unique); on the
spec's examples `data:image/png;base64,AAAA` and `AAAA` both reach the
face service as `AAAA`; and the stripping is idempotent. -/
theorem strip_between_first_commas_and_idempotent (s : String) :
    stripDataUri "data:image/png;base64,AAAA" = "AAAA" ∧
    stripDataUri "AAAA" = "AAAA" ∧
    (',' ∈ s.data →
      (stripDataUri s).data =
        ((s.data.dropWhile (fun c => c != ',')).tail).takeWhile
          (fun c => c != ',')) ∧
    stripDataUri (stripDataUri s) = stripDataUri s := by
  refine ⟨by decide, by decide, stripDataUri_data s, ?_⟩
  exact stripDataUri_of_no_comma _ (stripDataUri_no_comma s)

theorem strip_between_first_commas_and_idempotent_witness :
    (stripDataUri "x,y").data =
        ((("x,y" : String).data.dropWhile (fun c => c != ',')).tail).takeWhile
          (fun c => c != ',') ∧
    stripDataUri (stripDataUri "x,y") = stripDataUri "x,y" :=
  ⟨(strip_between_first_commas_and_idempotent "x,y").2.2.1 (by decide),
   (strip_between_first_commas_and_idempotent "x,y").2.2.2⟩

/-- C5: when the collection already exists, `create_collection` is a
no-op returning a success result that reports "already exists" and
issues no creation request; consequently running it twice in a row is
idempotent — the second run reports "already exists", changes nothing
and issues no creation request. -/
theorem create_collection_idempotent (st : RekogState) (cid : String) :
    (cid ∈ st.collections →
      create_collection st cid =
        (⟨"success", "Collection " ++ cid ++ " already exists."⟩, st,
          false)) ∧
    ((create_collection ((create_collection st cid).2.1) cid).1 =
        ⟨"success", "Collection " ++ cid ++ " already exists."⟩ ∧
      (create_collection ((create_collection st cid).2.1) cid).2.1 =
        (create_collection st cid).2.1 ∧
      (create_collection ((create_collection st cid).2.1) cid).2.2 =
        false) := by
  have hnoop : ∀ t : RekogState, cid ∈ t.collections →
      create_collection t cid =
        (⟨"success", "Collection " ++ cid ++ " already exists."⟩, t,
          false) := by
    intro t ht
    simp [create_collection, ht]
  have hmem := create_collection_mem st cid
  have hsecond := hnoop _ hmem
  exact ⟨hnoop st, by rw [hsecond], by rw [hsecond], by rw [hsecond]⟩

theorem create_collection_idempotent_witness :
    create_collection ⟨["attend"]⟩ "attend" =
      (⟨"success", "Collection attend already exists."⟩, ⟨["attend"]⟩,
        false) :=
  (create_collection_idempotent ⟨["attend"]⟩ "attend").1 (by decide)

/-- C6 counterexample: a register-face request during which the record
store fails (the roll-number lookup collapses to `None`) is surfaced as
HTTP 404, not 500. -/
theorem store_failure_not_always_500 :
    registerStatus
      (api_register_face (some "img") (some "R1") (fun _ => none)
        (fun _ _ => IndexResult.err "e") ⟨[]⟩ "attend").1
      = 404 ∧ (404 : Nat) ≠ 500 := by
  refine ⟨rfl, by decide⟩

/-- C6 amended: a record-store failure during student creation is
surfaced as HTTP 500, but a record-store failure during the
register-face roll-number lookup is surfaced as HTTP 404 (identical to
student-not-found), not 500. -/
theorem store_failure_statuses
    (data : List (String × PyValue))
    (create : PyValue → PyValue → PyValue → PyValue → PyValue → PyValue)
    (img roll : String) (get : String → Option (List Student))
    (index_faces : String → String → IndexResult)
    (st : RekogState) (cid : String)
    (hvalid : findMissing required_fields data = none)
    (hfail : create (getVal data "name") (getVal data "branch")
        (getVal data "year") (getVal data "roll_number")
        (getVal data "email") = PyValue.pyNone)
    (hlookupfail : get roll = none) :
    createStudentStatus (api_create_student data create) = 500 ∧
    registerStatus
      (api_register_face (some img) (some roll) get index_faces st cid).1
      = 404 := by
  constructor
  · simp [api_create_student, hvalid, hfail, PyValue.truthy,
      createStudentStatus]
  · simp [api_register_face, hlookupfail, registerStatus]

theorem store_failure_statuses_witness :
    createStudentStatus
      (api_create_student
        [("name", PyValue.pyNone), ("branch", PyValue.pyNone),
         ("year", PyValue.pyNone), ("roll_number", PyValue.pyNone),
         ("email", PyValue.pyNone)]
        (fun _ _ _ _ _ => PyValue.pyNone)) = 500 ∧
    registerStatus
      (api_register_face (some "img") (some "R1") (fun _ => none)
        (fun _ _ => IndexResult.err "e") ⟨[]⟩ "attend").1 = 404 :=
  store_failure_statuses
    [("name", PyValue.pyNone), ("branch", PyValue.pyNone),
     ("year", PyValue.pyNone), ("roll_number", PyValue.pyNone),
     ("email", PyValue.pyNone)]
    (fun _ _ _ _ _ => PyValue.pyNone) "img" "R1" (fun _ => none)
    (fun _ _ => IndexResult.err "e") ⟨[]⟩ "attend" rfl rfl rfl

/-- C7: on any store response with status `>= 400`, `supabase_request`
returns the `None` signal (no exception); on status `< 400` it returns
the parsed JSON body when the body is JSON, and the raw text
otherwise. -/
theorem supabase_request_contract (resp : HttpResponse) :
    (400 ≤ resp.status_code → supabase_request resp = ReqResult.null) ∧
    (resp.status_code < 400 →
      supabase_request resp =
        match resp.jsonBody with
        | some v => ReqResult.json v
        | none => ReqResult.text resp.text) := by
  constructor
  · intro h
    simp [supabase_request, h]
  · intro h
    simp [supabase_request, Nat.not_le.mpr h]

theorem supabase_request_contract_witness :
    supabase_request ⟨409, some (PyValue.pyStr "dup"), "dup"⟩ =
        ReqResult.null ∧
    supabase_request ⟨200, some (PyValue.pyList []), "[]"⟩ =
        ReqResult.json (PyValue.pyList []) :=
  ⟨(supabase_request_contract ⟨409, some (PyValue.pyStr "dup"), "dup"⟩).1
      (by decide),
   (supabase_request_contract ⟨200, some (PyValue.pyList []), "[]"⟩).2
      (by decide)⟩

/-- C8: the student-creation endpoint validates only the presence of
the five keys name, branch, year, roll_number, email, in that fixed
order: a body containing all five keys passes validation whatever the
values, and when keys are absent the 400 message names the first
missing key in that order. -/
theorem create_student_validates_presence_only
    (data : List (String × PyValue))
    (create : PyValue → PyValue → PyValue → PyValue → PyValue → PyValue) :
    ((∀ f ∈ required_fields, hasKey data f = true) →
      ∀ f, api_create_student data create ≠
        CreateStudentResponse.missingField f) ∧
    (∀ (fs₁ : List String) (f : String) (fs₂ : List String),
      required_fields = fs₁ ++ f :: fs₂ →
      (∀ g ∈ fs₁, hasKey data g = true) → hasKey data f = false →
      api_create_student data create =
        CreateStudentResponse.missingField f) := by
  constructor
  · intro h f
    simp only [api_create_student, findMissing_eq_none data required_fields h]
    split <;> simp
  · intro fs₁ f fs₂ hreq hpresent hf
    have hfind : findMissing required_fields data = some f := by
      rw [hreq]
      exact findMissing_first data fs₁ f fs₂ hpresent hf
    simp [api_create_student, hfind]

theorem create_student_validates_presence_only_witness :
    api_create_student
        [("name", PyValue.pyNone), ("branch", PyValue.pyStr "")]
        (fun _ _ _ _ _ => PyValue.pyList [PyValue.pyNone])
      = CreateStudentResponse.missingField "year" ∧
    api_create_student
        [("name", PyValue.pyNone), ("branch", PyValue.pyStr ""),
         ("year", PyValue.pyNone), ("roll_number", PyValue.pyStr ""),
         ("email", PyValue.pyNone)]
        (fun _ _ _ _ _ => PyValue.pyList [PyValue.pyNone])
      ≠ CreateStudentResponse.missingField "name" :=
  ⟨(create_student_validates_presence_only
      [("name", PyValue.pyNone), ("branch", PyValue.pyStr "")]
      (fun _ _ _ _ _ => PyValue.pyList [PyValue.pyNone])).2
      ["name", "branch"] "year" ["roll_number", "email"] rfl
      (by decide) (by decide),
   (create_student_validates_presence_only
      [("name", PyValue.pyNone), ("branch", PyValue.pyStr ""),
       ("year", PyValue.pyNone), ("roll_number", PyValue.pyStr ""),
       ("email", PyValue.pyNone)]
      (fun _ _ _ _ _ => PyValue.pyList [PyValue.pyNone])).1
      (by decide) "name"⟩

/-- C9: any falsy external identifier — omitted (`None`) or the empty
string — is replaced by the sentinel "unknown" in the enrollment
request, so an empty-string external identifier is never preserved on
an enrolled face. -/
theorem index_external_id_sentinel (cid img : String)
    (eid : Option String) :
    ((eid = none ∨ eid = some "") →
      (index_faces_request cid img eid).externalImageId = "unknown") ∧
    (index_faces_request cid img eid).externalImageId ≠ "" := by
  constructor
  · rintro (rfl | rfl) <;> simp [index_faces_request, effective_external_id]
  · cases eid with
    | none => simp [index_faces_request, effective_external_id]
    | some s =>
        simp only [index_faces_request, effective_external_id]
        by_cases hs : s = ""
        · simp [hs]
        · simp [hs]

theorem index_external_id_sentinel_witness :
    (index_faces_request "attend" "img" (some "")).externalImageId
      = "unknown" :=
  (index_external_id_sentinel "attend" "img" (some "")).1 (Or.inr rfl)

/-- C10: per recognize-face request the attendance write is issued at
most once, and any issued write comes from the path where the search
returned success with a non-empty match list and the student lookup by
the top match's external identifier returned a non-empty list; in every
other branch no write occurs. -/
theorem recognize_attendance_write_invariant
    (image : Option String) (search : String → SearchResult)
    (get : String → Option (List Student)) :
    (api_recognize_face image search get).2.length ≤ 1 ∧
    (∀ w ∈ (api_recognize_face image search get).2,
      ∃ img m ms s ss, image = some img ∧
        search (stripDataUri img) = SearchResult.success (m :: ms) ∧
        get m.external_id = some (s :: ss) ∧
        w = (m.external_id, m.similarity)) := by
  cases image with
  | none => simp [api_recognize_face]
  | some img =>
      cases hs : search (stripDataUri img) with
      | err msg => simp [api_recognize_face, hs]
      | success l =>
          cases l with
          | nil => simp [api_recognize_face, hs]
          | cons m ms =>
              cases hg : get m.external_id with
              | none => simp [api_recognize_face, hs, hg]
              | some sl =>
                  cases sl with
                  | nil => simp [api_recognize_face, hs, hg]
                  | cons s ss =>
                      constructor
                      · simp [api_recognize_face, hs, hg]
                      · intro w hw
                        simp only [api_recognize_face, hs, hg,
                          List.mem_singleton] at hw
                        exact ⟨img, m, ms, s, ss, rfl, hs, hg, hw⟩

theorem recognize_attendance_write_invariant_witness :
    (api_recognize_face (some "img")
        (fun _ => SearchResult.success [⟨"F1", 93.2, "S1"⟩])
        (fun _ => some [⟨"S1", "Ada", "CSE", 3, "R1", "ada@x"⟩])).2.length
      ≤ 1 :=
  (recognize_attendance_write_invariant (some "img")
    (fun _ => SearchResult.success [⟨"F1", 93.2, "S1"⟩])
    (fun _ => some [⟨"S1", "Ada", "CSE", 3, "R1", "ada@x"⟩])).1
